import Mathlib

/-!
Verification development for the agri_app news aggregation pipeline.

The development shallowly embeds the two aggregator variants of the
repository: the enhanced Kerala-focused aggregator of src/app.py
(class EnhancedAgriNewsAggregator) and the government aggregator of
src/gov_farm.py (class GovernmentAgriNewsAggregator).  Text is modelled
as List Char; Python substring tests, lowercasing, the HTML-stripping
regular expression, date formatting, scoring, relevance classification,
deduplication, sorting and enrichment are translated function by
function from the source.  External effects are explicit parameters:
the network is a fetch oracle returning either entries or an error, the
summarization model is an oracle returning a success or failure result,
and the process clock is passed in as the current calendar year, a
per-article time reading, and the final ISO timestamp string.
-/

namespace AgriApp

/-- Model of Python str.lower applied to a character sequence
(ASCII-faithful). -/
def lowerText (t : List Char) : List Char := t.map Char.toLower

/-- Model of the Python substring test, as in the expression
(keyword in text): containsSub text pat is true when pat occurs
contiguously inside text.  Empty patterns match everything, as in
Python. -/
def containsSub : List Char → List Char → Bool
  | [], pat => pat.isEmpty
  | c :: rest, pat => pat.isPrefixOf (c :: rest) || containsSub rest pat

/-- Characters treated as whitespace by Python str.strip (ASCII
fragment: space, tab, newline, vertical tab, form feed, carriage
return). -/
def pyWhitespace (c : Char) : Bool :=
  c.toNat = 32 || c.toNat = 9 || c.toNat = 10 || c.toNat = 11 || c.toNat = 12 || c.toNat = 13

/-- Model of Python str.strip(): drop whitespace from both ends. -/
def pyStrip (t : List Char) : List Char :=
  ((t.dropWhile pyWhitespace).reverse.dropWhile pyWhitespace).reverse

/-- Lowercase letters and digits, the character class of the entity
name alternative of the clean_html regular expression. -/
def lowerAlnum (c : Char) : Bool :=
  (97 ≤ c.toNat && c.toNat ≤ 122) || (48 ≤ c.toNat && c.toNat ≤ 57)

/-- Decimal digits. -/
def digitCh (c : Char) : Bool := 48 ≤ c.toNat && c.toNat ≤ 57

/-- Lowercase hexadecimal digits. -/
def hexLower (c : Char) : Bool := digitCh c || (97 ≤ c.toNat && c.toNat ≤ 102)

/-- Scanner for the non-greedy tag alternative of the clean_html
regular expression at a position just after an opening angle bracket:
returns the remainder after the nearest closing angle bracket, failing
if a newline intervenes (the dot of the pattern does not match a
newline). -/
def tagTail : List Char → Option (List Char)
  | [] => none
  | c :: rest =>
    if c = '>' then some rest
    else if c = '\n' then none
    else tagTail rest

/-- Scanner for the entity alternative of the clean_html regular
expression at a position just after an ampersand.  The three branches
correspond, in order of alternation, to a named entity, a decimal
numeric entity of one to six digits, and a lowercase hexadecimal
entity of one to six digits, each terminated by a semicolon. -/
def entityTail (rest : List Char) : Option (List Char) :=
  let runA := rest.takeWhile lowerAlnum
  if 1 ≤ runA.length ∧ (rest.drop runA.length).head? = some ';' then
    some (rest.drop (runA.length + 1))
  else
    match rest with
    | '#' :: r2 =>
      let runB := r2.takeWhile digitCh
      if 1 ≤ runB.length ∧ runB.length ≤ 6 ∧ (r2.drop runB.length).head? = some ';' then
        some (r2.drop (runB.length + 1))
      else
        match r2 with
        | 'x' :: r3 =>
          let runC := r3.takeWhile hexLower
          if 1 ≤ runC.length ∧ runC.length ≤ 6 ∧ (r3.drop runC.length).head? = some ';' then
            some (r3.drop (runC.length + 1))
          else none
        | _ => none
    | _ => none

/-- Fuelled scan of re.sub with the clean_html pattern: at each
position the tag alternative is tried on an opening angle bracket and
the entity alternative on an ampersand; a match is deleted and the
scan resumes after it, otherwise the character is kept.  The fuel is
the length of the input, which one step per retained or skipped
character never exhausts. -/
def cleanAux : Nat → List Char → List Char
  | 0, cs => cs
  | _ + 1, [] => []
  | fuel + 1, c :: rest =>
    if c = '<' then
      match tagTail rest with
      | some r => cleanAux fuel r
      | none => c :: cleanAux fuel rest
    else if c = '&' then
      match entityTail rest with
      | some r => cleanAux fuel r
      | none => c :: cleanAux fuel rest
    else c :: cleanAux fuel rest

/-- Model of clean_html of src/app.py lines 107-113 (identical in
src/gov_farm.py lines 73-79): strip HTML tags and entities by the
regular expression, then strip surrounding whitespace.  A falsy input
yields the empty result through the same code path. -/
def clean_html (raw : List Char) : List Char :=
  pyStrip (cleanAux raw.length raw)

/-- Zero-padded two-digit decimal rendering. -/
def pad2 (n : Nat) : String :=
  if n < 10 then "0" ++ toString n else toString n

/-- Zero-padded four-digit decimal rendering. -/
def pad4 (n : Nat) : String :=
  if n < 10 then "000" ++ toString n
  else if n < 100 then "00" ++ toString n
  else if n < 1000 then "0" ++ toString n
  else toString n

/-- Gregorian leap year test used by the datetime validity check. -/
def isLeap (y : Nat) : Bool := (y % 4 = 0 && y % 100 ≠ 0) || y % 400 = 0

/-- Days in a month, for the datetime validity check. -/
def daysInMonth (y m : Nat) : Nat :=
  if m = 2 then (if isLeap y then 29 else 28)
  else if m = 4 ∨ m = 6 ∨ m = 9 ∨ m = 11 then 30
  else 31

/-- Model of format_date of src/app.py lines 115-123 (identical in
src/gov_farm.py lines 81-89): the first six fields of a parsed time
are passed to the datetime constructor and rendered as an ISO-8601
UTC string; an invalid date raises and yields None, and a missing
parsed time yields None. -/
def format_date : Option (Nat × Nat × Nat × Nat × Nat × Nat) → Option String
  | none => none
  | some (y, mo, d, h, mi, s) =>
    if 1 ≤ y ∧ y ≤ 9999 ∧ 1 ≤ mo ∧ mo ≤ 12 ∧ 1 ≤ d ∧ d ≤ daysInMonth y mo
        ∧ h ≤ 23 ∧ mi ≤ 59 ∧ s ≤ 59 then
      some (pad4 y ++ "-" ++ pad2 mo ++ "-" ++ pad2 d ++ "T" ++ pad2 h ++ ":"
        ++ pad2 mi ++ ":" ++ pad2 s ++ "+00:00")
    else none

/-- Kerala keyword list of is_relevant_article, src/app.py lines
180-184. -/
def kerala_keywords : List String :=
  ["kerala", "malayalam", "kochi", "thiruvananthapuram", "kozhikode", "kannur",
   "alappuzha", "kollam", "palakkad", "thrissur", "ernakulam", "wayanad",
   "kasargod", "pathanamthitta", "idukki", "malappuram"]

/-- General agriculture keyword list of is_relevant_article, src/app.py
lines 190-194. -/
def agri_keywords : List String :=
  ["farmer", "agriculture", "crop", "farming", "kisan", "subsidy", "scheme",
   "policy", "government", "ministry", "budget", "loan", "irrigation",
   "fertilizer", "seed", "harvest", "production", "rural", "village"]

/-- Kerala bonus keyword list of calculate_enhanced_score, src/app.py
line 205. -/
def score_kerala_keywords : List String :=
  ["kerala", "malayalam", "kochi", "thiruvananthapuram"]

/-- High priority keyword list of calculate_enhanced_score, src/app.py
lines 211-215. -/
def high_priority_keywords : List String :=
  ["pradhan mantri", "pm kisan", "ministry of agriculture", "government scheme",
   "budget allocation", "cabinet approval", "crop insurance", "msp",
   "kerala farmers", "state government", "chief minister"]

/-- Medium priority keyword list of calculate_enhanced_score,
src/app.py lines 221-224. -/
def medium_priority_keywords : List String :=
  ["farmer", "agriculture", "subsidy", "policy", "scheme", "government",
   "fund", "rural", "village", "irrigation", "fertilizer"]

/-- Government keyword list of is_government_relevant, src/gov_farm.py
lines 137-141. -/
def govt_keywords : List String :=
  ["government", "ministry", "scheme", "policy", "cabinet", "pm ", "pradhan mantri",
   "central government", "state government", "budget", "subsidy", "fund", "allocation",
   "launch", "announcement", "approved", "sanction", "pib", "press information bureau"]

/-- High priority keyword list of calculate_relevance_score,
src/gov_farm.py line 232. -/
def gov_high_priority_keywords : List String :=
  ["pradhan mantri", "pm kisan", "ministry of agriculture", "government scheme",
   "budget allocation", "cabinet approval"]

/-- Medium priority keyword list of calculate_relevance_score,
src/gov_farm.py line 238. -/
def gov_medium_priority_keywords : List String :=
  ["farmer", "agriculture", "subsidy", "policy", "scheme", "government", "fund"]

/-- The lowered concatenation built by the Python expression
f-string of title, a space, and description, then lower(). -/
def textOf (title description : String) : List Char :=
  lowerText ((title ++ " " ++ description).toList)

/-- Count of the keywords of a list that occur in a text; each
keyword of the list contributes once, mirroring the per-keyword
bonus loops of the scorers. -/
def countMatches (text : List Char) (kws : List String) : Nat :=
  kws.countP (fun kw => containsSub text kw.toList)

/-- Source configuration record of the enhanced aggregator
(src/app.py lines 37-101): every configured feed dictionary carries
name, url, type and priority; the code reads priority through
.get with default, but every configured entry defines it. -/
structure Feed where
  name : String
  url : String
  type : String
  priority : Nat
deriving DecidableEq

/-- Model of is_relevant_article of src/app.py lines 177-197: a
region tier consulted only for kerala-typed sources, then a general
agriculture tier; either match makes the entry relevant. -/
def is_relevant_article (title description source_type : String) : Bool :=
  (containsSub source_type.toList "kerala".toList
      && kerala_keywords.any (fun kw => containsSub (textOf title description) kw.toList))
    || agri_keywords.any (fun kw => containsSub (textOf title description) kw.toList)

/-- Model of calculate_enhanced_score of src/app.py lines 199-234.
The base is the source priority; each keyword list adds its bonus per
matching keyword; the recency branch consults the current calendar
year string obtained from the process clock, passed here as the
current_year argument. -/
def calculate_enhanced_score (title description : String) (source_info : Feed)
    (current_year : String) : Nat :=
  let text := textOf title description
  let base := source_info.priority
    + 15 * countMatches text score_kerala_keywords
    + 10 * countMatches text high_priority_keywords
    + 3 * countMatches text medium_priority_keywords
  if containsSub text "today".toList || containsSub text current_year.toList
      || containsSub text "2025".toList then
    base + 5
  else base

/-- Model of is_government_relevant of src/gov_farm.py lines
135-144. -/
def is_government_relevant (title description : String) : Bool :=
  govt_keywords.any (fun kw => containsSub (textOf title description) kw.toList)

/-- Model of calculate_relevance_score of src/gov_farm.py lines
226-247: keyword bonuses over a zero base, and a recency branch that
tests only the literal tokens today and 2025, with no clock input. -/
def calculate_relevance_score (title description : String) : Nat :=
  let text := textOf title description
  let base := 10 * countMatches text gov_high_priority_keywords
    + 5 * countMatches text gov_medium_priority_keywords
  if containsSub text "today".toList || containsSub text "2025".toList then
    base + 3
  else base

/-- Model of get_article_category of src/app.py lines 338-351. -/
def get_article_category (title description : String) : String :=
  let text := textOf title description
  if ["scheme", "subsidy", "government", "policy"].any (fun w => containsSub text w.toList) then
    "Government Schemes"
  else if ["price", "market", "selling", "procurement"].any (fun w => containsSub text w.toList) then
    "Market & Prices"
  else if ["technology", "innovation", "modern", "digital"].any (fun w => containsSub text w.toList) then
    "Technology"
  else if ["weather", "climate", "rain", "monsoon"].any (fun w => containsSub text w.toList) then
    "Weather & Climate"
  else "General News"

/-- Feed entry as produced by the parsing dependency.  Option encodes
presence of the corresponding dictionary key, matching the .get
accesses of the source. -/
structure Entry where
  link : Option String
  title : Option String
  summary : Option String
  description : Option String
  published_parsed : Option (Nat × Nat × Nat × Nat × Nat × Nat)
  published : Option String
deriving DecidableEq

/-- Candidate article dictionary built at src/app.py lines 277-288. -/
structure Article where
  title : String
  url : String
  description : String
  date : Option String
  source : String
  source_type : String
  published_time : String
  score : Nat
  is_kerala_focused : Bool
  category : String
deriving DecidableEq

/-- Working state of a run of the enhanced aggregator: the global seen
URL set and the accumulated candidate articles. -/
structure RunState where
  processed_urls : List String
  all_articles : List Article
deriving DecidableEq

/-- Per-entry body of the fetch loop of src/app.py lines 264-291: skip
an empty or already seen URL; otherwise mark the URL seen, read the
title with its No Title default and the summary-then-description
default chain, and append a scored candidate when the relevance check
passes. -/
def processEntry (current_year : String) (feed_info : Feed) (st : RunState)
    (entry : Entry) : RunState :=
  let article_url := entry.link.getD ""
  if article_url = "" ∨ article_url ∈ st.processed_urls then st
  else
    let title := entry.title.getD "No Title"
    let description := entry.summary.getD (entry.description.getD "")
    if is_relevant_article title description feed_info.type then
      { processed_urls := article_url :: st.processed_urls,
        all_articles := st.all_articles ++
          [{ title := title,
             url := article_url,
             description := String.mk ((clean_html description.toList).take 400),
             date := format_date entry.published_parsed,
             source := feed_info.name,
             source_type := feed_info.type,
             published_time := entry.published.getD "",
             score := calculate_enhanced_score title description feed_info current_year,
             is_kerala_focused := containsSub feed_info.type.toList "kerala".toList,
             category := get_article_category title description }] }
    else
      { processed_urls := article_url :: st.processed_urls,
        all_articles := st.all_articles }

/-- Per-feed body of src/app.py lines 246-298: a fetch failure is
caught and the feed contributes nothing; otherwise the first ten
entries are processed in order. -/
def processFeed (current_year : String) (fetch : Feed → Except String (List Entry))
    (st : RunState) (feed_info : Feed) : RunState :=
  match fetch feed_info with
  | Except.error _ => st
  | Except.ok entries => (entries.take 10).foldl (processEntry current_year feed_info) st

/-- Precedence relation realising the Python call sorted with the
priority key and reverse True, src/app.py line 244: a feed a may be
placed before a feed b exactly when the priority of b does not exceed
the priority of a.  Python sorted is the stable sort by this total
preorder. -/
def feedSortRel (a b : Feed) : Prop := b.priority ≤ a.priority

instance : DecidableRel feedSortRel :=
  fun a b => inferInstanceAs (Decidable (b.priority ≤ a.priority))

/-- Sorting of the configured feeds by descending priority, src/app.py
line 244.  Python sorted is stable, and a stable sort by a total
preorder is unique, so insertion sort by the same precedence relation
is exactly the sort the source performs. -/
def sortFeedsByPriority (feeds : List Feed) : List Feed :=
  List.insertionSort feedSortRel feeds

/-- Accumulation of candidates across all feeds, in priority order,
with the seen set threaded through, src/app.py lines 240-298. -/
def appCandidates (current_year : String) (fetch : Feed → Except String (List Entry))
    (feeds : List Feed) : RunState :=
  (sortFeedsByPriority feeds).foldl (processFeed current_year fetch) ⟨[], []⟩

/-- Result of one call of the summarization dependency: an exception
with its message, or a response whose text attribute may be absent.
The source branches on the truthiness of response.text, so an absent
text and an empty text take the same failure path. -/
inductive SummResult where
  | exn (msg : String)
  | resp (text : Option String)
deriving DecidableEq

/-- Model of generate_enhanced_summary of src/app.py lines 125-175.
The availability of the module-level model object and the behaviour of
each generate_content call are oracle inputs.  Every failure path
returns its sentinel string; only a truthy response text is returned
as the stripped summary. -/
def generate_enhanced_summary (modelAvailable : Bool) (oracle : String → SummResult)
    (title description source_type : String) : String :=
  if modelAvailable = false then "🤖 AI service not available"
  else
    let clean_title := String.mk (clean_html title.toList)
    let clean_description := String.mk (clean_html description.toList)
    if clean_title = "" ∧ clean_description = "" then "❌ No content available for summary"
    else
      let content := "Title: " ++ clean_title ++ "\nContent: "
        ++ String.mk (clean_description.toList.take 800)
      let focus_area :=
        if containsSub source_type.toList "kerala".toList then
          "Kerala farmers and state-specific agricultural schemes"
        else
          "Indian farmers and national agricultural policies"
      let prompt := "\nSummarize this agricultural news in 2-3 engaging sentences for social media style content.\nFocus on:\n- Impact on "
        ++ focus_area
        ++ "\n- Key benefits or changes\n- Practical implications\n- Financial support or opportunities\n\nMake it conversational and easy to understand.\n\nContent: "
        ++ content ++ "\n\nSummary:"
      match oracle prompt with
      | SummResult.exn msg => "🤖 Summary error: " ++ String.mk (msg.toList.take 100)
      | SummResult.resp none => "🤖 Unable to generate summary"
      | SummResult.resp (some t) =>
        if t = "" then "🤖 Unable to generate summary" else String.mk (pyStrip t.toList)

/-- Externally visible article of the enhanced aggregator after the
enrichment loop of src/app.py lines 311-327.  The score field records
dictionary key presence: the loop pops the score key, so it is none
here. -/
structure FinalArticle where
  title : String
  url : String
  description : String
  date : Option String
  source : String
  source_type : String
  published_time : String
  score : Option Nat
  is_kerala_focused : Bool
  category : String
  ai_summary : String
  id : Nat
  reel_id : String
deriving DecidableEq

/-- One iteration of the enrichment loop of src/app.py lines 311-327
for the article at one-based position i: attach the generated summary,
the id, and the reel identifier built from the clock reading taken
during that iteration, then pop the score key. -/
def enrichArticle (modelAvailable : Bool) (oracle : String → SummResult)
    (timeAt : Nat → Nat) (i : Nat) (a : Article) : FinalArticle :=
  { title := a.title,
    url := a.url,
    description := a.description,
    date := a.date,
    source := a.source,
    source_type := a.source_type,
    published_time := a.published_time,
    score := none,
    is_kerala_focused := a.is_kerala_focused,
    category := a.category,
    ai_summary := generate_enhanced_summary modelAvailable oracle a.title a.description a.source_type,
    id := i,
    reel_id := "reel_" ++ toString (timeAt i) ++ "_" ++ toString i }

/-- Final payload of fetch_enhanced_articles, src/app.py lines
329-336 and 353-363.  The error field records the extra diagnostic
key of the empty response. -/
structure Response where
  articles : List FinalArticle
  total_articles : Nat
  fetch_timestamp : String
  sources_checked : Nat
  total_found : Nat
  kerala_articles : Nat
  error : Option String
deriving DecidableEq

/-- Model of get_empty_response of src/app.py lines 353-363. -/
def get_empty_response (fetchTimestamp : String) (feeds : List Feed) : Response :=
  { articles := [],
    total_articles := 0,
    fetch_timestamp := fetchTimestamp,
    sources_checked := feeds.length,
    total_found := 0,
    kerala_articles := 0,
    error := some "No relevant articles found" }

/-- Precedence relation realising the Python call sort with the score
key and reverse True, src/app.py line 305: a candidate a may precede a
candidate b exactly when the score of b does not exceed the score of
a; equal scores keep discovery order by stability. -/
def appSortRel (a b : Article) : Prop := b.score ≤ a.score

instance : DecidableRel appSortRel :=
  fun a b => inferInstanceAs (Decidable (b.score ≤ a.score))

/-- Candidates sorted by descending score (stable, src/app.py line
305) and truncated to the top max_articles (line 306). -/
def appTopArticles (current_year : String) (fetch : Feed → Except String (List Entry))
    (feeds : List Feed) (max_articles : Nat) : List Article :=
  (List.insertionSort appSortRel
    ((appCandidates current_year fetch feeds).all_articles)).take max_articles

/-- Model of fetch_enhanced_articles of src/app.py lines 236-336.
Clock readings are explicit: current_year feeds the scorer, timeAt
gives the per-iteration reading embedded in each reel identifier, and
fetchTimestamp is the final ISO timestamp. -/
def fetch_enhanced_articles (current_year : String) (timeAt : Nat → Nat)
    (fetchTimestamp : String) (modelAvailable : Bool) (oracle : String → SummResult)
    (fetch : Feed → Except String (List Entry)) (feeds : List Feed)
    (max_articles : Nat) : Response :=
  let all_articles := (appCandidates current_year fetch feeds).all_articles
  if all_articles = [] then get_empty_response fetchTimestamp feeds
  else
    let enriched := (appTopArticles current_year fetch feeds max_articles).enum.map
      (fun p => enrichArticle modelAvailable oracle timeAt (p.1 + 1) p.2)
    { articles := enriched,
      total_articles := enriched.length,
      fetch_timestamp := fetchTimestamp,
      sources_checked := feeds.length,
      total_found := all_articles.length,
      kerala_articles := (enriched.filter (fun a => a.is_kerala_focused)).length,
      error := none }

/-- Source configuration record of the government aggregator
(src/gov_farm.py lines 36-67): name, url and type only, no priority
field. -/
structure GovFeed where
  name : String
  url : String
  type : String
deriving DecidableEq

/-- Candidate article dictionary built at src/gov_farm.py lines
178-186. -/
structure GovArticle where
  title : String
  url : String
  description : String
  date : Option String
  source : String
  published_time : String
  score : Nat
deriving DecidableEq

/-- Working state of a run of the government aggregator. -/
structure GovRunState where
  processed_urls : List String
  all_articles : List GovArticle
deriving DecidableEq

/-- Per-entry body of the fetch loop of src/gov_farm.py lines
165-188. -/
def govProcessEntry (feed_info : GovFeed) (st : GovRunState) (entry : Entry) : GovRunState :=
  let article_url := entry.link.getD ""
  if article_url = "" ∨ article_url ∈ st.processed_urls then st
  else
    let title := entry.title.getD "No Title"
    let description := entry.summary.getD (entry.description.getD "")
    if is_government_relevant title description then
      { processed_urls := article_url :: st.processed_urls,
        all_articles := st.all_articles ++
          [{ title := title,
             url := article_url,
             description := String.mk ((clean_html description.toList).take 400),
             date := format_date entry.published_parsed,
             source := feed_info.name,
             published_time := entry.published.getD "",
             score := calculate_relevance_score title description }] }
    else
      { processed_urls := article_url :: st.processed_urls,
        all_articles := st.all_articles }

/-- Per-feed body of src/gov_farm.py lines 153-195: a fetch failure is
caught and the feed contributes nothing; otherwise the first fifteen
entries are processed in order. -/
def govProcessFeed (fetch : GovFeed → Except String (List Entry))
    (st : GovRunState) (feed_info : GovFeed) : GovRunState :=
  match fetch feed_info with
  | Except.error _ => st
  | Except.ok entries => (entries.take 15).foldl (govProcessEntry feed_info) st

/-- Accumulation of candidates across the configured feeds in their
configured order (the government aggregator does not sort its feeds),
src/gov_farm.py lines 150-195. -/
def govCandidates (fetch : GovFeed → Except String (List Entry))
    (feeds : List GovFeed) : GovRunState :=
  feeds.foldl (govProcessFeed fetch) ⟨[], []⟩

/-- Code-point lexicographic strict comparison of character lists,
the order Python uses to compare the date strings inside the sort
key tuples. -/
def strLtCh : List Char → List Char → Bool
  | [], [] => false
  | [], _ :: _ => true
  | _ :: _, [] => false
  | a :: as, b :: bs => if a = b then strLtCh as bs else decide (a < b)

/-- Non-strict form of the code-point order. -/
def strLeCh (a b : List Char) : Bool := ! strLtCh b a

/-- Precedence relation realising the Python call sort with the key
tuple of score and date-or-empty and reverse True, src/gov_farm.py
line 198: a candidate a may precede a candidate b exactly when the key
of a is lexicographically at least the key of b; equal keys keep
discovery order by stability. -/
def govSortRel (a b : GovArticle) : Prop :=
  b.score < a.score
    ∨ (a.score = b.score
        ∧ strLeCh (b.date.getD "").toList (a.date.getD "").toList = true)

instance : DecidableRel govSortRel :=
  fun a b => inferInstanceAs (Decidable (b.score < a.score
    ∨ (a.score = b.score
        ∧ strLeCh (b.date.getD "").toList (a.date.getD "").toList = true)))

/-- Government candidates sorted by the descending composite key and
truncated to ten, src/gov_farm.py lines 197-199. -/
def govTopArticles (fetch : GovFeed → Except String (List Entry))
    (feeds : List GovFeed) : List GovArticle :=
  (List.insertionSort govSortRel (govCandidates fetch feeds).all_articles).take 10

/-- Model of generate_government_summary of src/gov_farm.py lines
91-133, with the same oracle treatment as the enhanced variant. -/
def generate_government_summary (modelAvailable : Bool) (oracle : String → SummResult)
    (title description : String) : String :=
  if modelAvailable = false then "🤖 AI service not available"
  else
    let clean_title := String.mk (clean_html title.toList)
    let clean_description := String.mk (clean_html description.toList)
    if clean_title = "" ∧ clean_description = "" then "❌ No content available for summary"
    else
      let content := "Title: " ++ clean_title ++ "\nContent: "
        ++ String.mk (clean_description.toList.take 800)
      let prompt := "\nSummarize this Indian government agricultural news/policy in 2-3 concise sentences. \nFocus on:\n- Key government schemes or policies mentioned\n- Benefits for farmers\n- Implementation details or deadlines\n- Financial support or subsidies\n\nContent: "
        ++ content ++ "\n\nGovernment Agriculture Summary:"
      match oracle prompt with
      | SummResult.exn msg => "🤖 Summary error: " ++ String.mk (msg.toList.take 100)
      | SummResult.resp none => "🤖 Unable to generate summary"
      | SummResult.resp (some t) =>
        if t = "" then "🤖 Unable to generate summary" else String.mk (pyStrip t.toList)

/-- Externally visible article of the government aggregator after the
enrichment loop of src/gov_farm.py lines 204-216.  No pop is
performed there, so the score key remains present. -/
structure GovFinalArticle where
  title : String
  url : String
  description : String
  date : Option String
  source : String
  published_time : String
  score : Option Nat
  ai_summary : String
  id : Nat
deriving DecidableEq

/-- One iteration of the government enrichment loop for the article at
one-based position i. -/
def govEnrichArticle (modelAvailable : Bool) (oracle : String → SummResult)
    (i : Nat) (a : GovArticle) : GovFinalArticle :=
  { title := a.title,
    url := a.url,
    description := a.description,
    date := a.date,
    source := a.source,
    published_time := a.published_time,
    score := some a.score,
    ai_summary := generate_government_summary modelAvailable oracle a.title a.description,
    id := i }

/-- Final payload of fetch_top_10_articles, src/gov_farm.py lines
218-224. -/
structure GovResponse where
  articles : List GovFinalArticle
  total_articles : Nat
  fetch_timestamp : String
  sources_checked : Nat
  total_found : Nat
deriving DecidableEq

/-- Model of fetch_top_10_articles of src/gov_farm.py lines 146-224.
There is no empty-candidate branch, and the total_articles field is
the literal ten from line 221. -/
def fetch_top_10_articles (fetchTimestamp : String) (modelAvailable : Bool)
    (oracle : String → SummResult) (fetch : GovFeed → Except String (List Entry))
    (feeds : List GovFeed) : GovResponse :=
  let all_articles := (govCandidates fetch feeds).all_articles
  let enriched := (govTopArticles fetch feeds).enum.map
    (fun p => govEnrichArticle modelAvailable oracle (p.1 + 1) p.2)
  { articles := enriched,
    total_articles := 10,
    fetch_timestamp := fetchTimestamp,
    sources_checked := feeds.length,
    total_found := all_articles.length }

/-- View of a final article without its reel identifier, the one
article field built from a clock reading. -/
structure TimeFreeArticle where
  title : String
  url : String
  description : String
  date : Option String
  source : String
  source_type : String
  published_time : String
  score : Option Nat
  is_kerala_focused : Bool
  category : String
  ai_summary : String
  id : Nat
deriving DecidableEq

/-- Projection dropping the reel identifier. -/
def dropReel (a : FinalArticle) : TimeFreeArticle :=
  { title := a.title, url := a.url, description := a.description, date := a.date,
    source := a.source, source_type := a.source_type, published_time := a.published_time,
    score := a.score, is_kerala_focused := a.is_kerala_focused, category := a.category,
    ai_summary := a.ai_summary, id := a.id }

/-- View of a response without its fetch timestamp and without the
reel identifiers of its articles: everything that does not come from
the clock. -/
structure TimeFreeResponse where
  articles : List TimeFreeArticle
  total_articles : Nat
  sources_checked : Nat
  total_found : Nat
  kerala_articles : Nat
  error : Option String
deriving DecidableEq

/-- Projection dropping every clock-derived field. -/
def dropTimes (r : Response) : TimeFreeResponse :=
  { articles := r.articles.map dropReel, total_articles := r.total_articles,
    sources_checked := r.sources_checked, total_found := r.total_found,
    kerala_articles := r.kerala_articles, error := r.error }

/-- View of a final article without its generated summary. -/
structure SummaryFreeArticle where
  title : String
  url : String
  description : String
  date : Option String
  source : String
  source_type : String
  published_time : String
  score : Option Nat
  is_kerala_focused : Bool
  category : String
  id : Nat
  reel_id : String
deriving DecidableEq

/-- Projection dropping the generated summary. -/
def dropSummary (a : FinalArticle) : SummaryFreeArticle :=
  { title := a.title, url := a.url, description := a.description, date := a.date,
    source := a.source, source_type := a.source_type, published_time := a.published_time,
    score := a.score, is_kerala_focused := a.is_kerala_focused, category := a.category,
    id := a.id, reel_id := a.reel_id }

/-- View of a response without the generated summaries of its
articles. -/
structure SummaryFreeResponse where
  articles : List SummaryFreeArticle
  total_articles : Nat
  fetch_timestamp : String
  sources_checked : Nat
  total_found : Nat
  kerala_articles : Nat
  error : Option String
deriving DecidableEq

/-- Projection dropping every summarizer-derived field. -/
def dropSummaries (r : Response) : SummaryFreeResponse :=
  { articles := r.articles.map dropSummary, total_articles := r.total_articles,
    fetch_timestamp := r.fetch_timestamp, sources_checked := r.sources_checked,
    total_found := r.total_found, kerala_articles := r.kerala_articles,
    error := r.error }

/-- Test for a failed result of one summarization call: an exception,
an absent response text, or a falsy empty text. -/
def failedResult : SummResult → Bool
  | SummResult.exn _ => true
  | SummResult.resp none => true
  | SummResult.resp (some t) => t = ""

/-- The summarization dependency fails on every call: the module-level
model object is unavailable, or every generate call ends in a failed
result. -/
def alwaysFailing (modelAvailable : Bool) (oracle : String → SummResult) : Prop :=
  modelAvailable = false ∨ ∀ p, failedResult (oracle p) = true

/-- Recognizer of the sentinel failure summaries of
generate_enhanced_summary: the three fixed sentinel strings and the
error sentinel carrying a truncated exception message. -/
def isSentinelSummary (s : String) : Bool :=
  s = "🤖 AI service not available"
    || s = "❌ No content available for summary"
    || s = "🤖 Unable to generate summary"
    || "🤖 Summary error: ".toList.isPrefixOf s.toList

/-- Fetch oracle transformer replacing every failing source by a
source yielding zero entries. -/
def maskFailures (fetch : Feed → Except String (List Entry)) :
    Feed → Except String (List Entry) :=
  fun fd =>
    match fetch fd with
    | Except.error _ => Except.ok []
    | Except.ok es => Except.ok es

/-- Fetch oracle transformer for the government variant. -/
def govMaskFailures (fetch : GovFeed → Except String (List Entry)) :
    GovFeed → Except String (List Entry) :=
  fun fd =>
    match fetch fd with
    | Except.error _ => Except.ok []
    | Except.ok es => Except.ok es

/-- Deduplication invariant of the enhanced working state: every
accumulated candidate URL has been marked seen, and the accumulated
candidates have pairwise distinct URLs. -/
def urlInv (st : RunState) : Prop :=
  (∀ a ∈ st.all_articles, a.url ∈ st.processed_urls)
    ∧ st.all_articles.Pairwise (fun a b => a.url ≠ b.url)

/-- Deduplication invariant of the government working state. -/
def govUrlInv (st : GovRunState) : Prop :=
  (∀ a ∈ st.all_articles, a.url ∈ st.processed_urls)
    ∧ st.all_articles.Pairwise (fun a b => a.url ≠ b.url)

/-! Concrete fixtures used by witnesses and counterexamples. -/

/-- A high priority Kerala government feed fixture. -/
def feedKer : Feed :=
  { name := "Src A", url := "http://a", type := "kerala-government", priority := 10 }

/-- A lower priority national feed fixture. -/
def feedNat : Feed :=
  { name := "Src B", url := "http://b", type := "national-government", priority := 5 }

/-- A neutral feed fixture. -/
def feedPlain : Feed :=
  { name := "S", url := "u", type := "t", priority := 5 }

/-- A relevant Kerala entry fixture. -/
def entryKer : Entry :=
  { link := some "http://a/1", title := some "Kerala farmers subsidy",
    summary := some "New scheme for farmers", description := none,
    published_parsed := some (2024, 3, 10, 8, 30, 0), published := some "Sun, 10 Mar 2024" }

/-- An entry fixture sharing the canonical URL of entryKer. -/
def entryDup : Entry :=
  { link := some "http://a/1", title := some "Other title",
    summary := none, description := none, published_parsed := none, published := none }

/-- An irrelevant sports entry fixture. -/
def entrySport : Entry :=
  { link := some "http://b/2", title := some "Cricket final tonight",
    summary := some "sports only", description := none,
    published_parsed := none, published := none }

/-- Fetch oracle fixture serving entryKer from Src A and the duplicate
and the sports entry from every other feed. -/
def fetchKerNat : Feed → Except String (List Entry) := fun fd =>
  if fd.name = "Src A" then Except.ok [entryKer] else Except.ok [entryDup, entrySport]

/-- Summarizer oracle fixture whose response text is always absent. -/
def oracleNone : String → SummResult := fun _ => SummResult.resp none

/-- A government feed fixture. -/
def feedGov : GovFeed := { name := "G", url := "http://g", type := "government" }

/-- Government entry fixture with an early date. -/
def gEntryA : Entry :=
  { link := some "http://g/a", title := some "Government scheme A",
    summary := none, description := none,
    published_parsed := some (2020, 1, 1, 0, 0, 0), published := none }

/-- Government entry fixture with a late date and the same relevance
score as gEntryA. -/
def gEntryB : Entry :=
  { link := some "http://g/b", title := some "Government scheme B",
    summary := none, description := none,
    published_parsed := some (2024, 1, 1, 0, 0, 0), published := none }

/-- Fetch oracle fixture serving the two government entries in
discovery order A then B. -/
def gFetchAB : GovFeed → Except String (List Entry) := fun _ => Except.ok [gEntryA, gEntryB]

/-- Fetch oracle fixture serving only the first government entry. -/
def gFetchA : GovFeed → Except String (List Entry) := fun _ => Except.ok [gEntryA]

/-- A minimal relevant entry fixture. -/
def entryMin : Entry :=
  { link := some "u1", title := some "farmer", summary := none, description := none,
    published_parsed := none, published := none }

/-- Fetch oracle fixture serving the minimal entry from every feed. -/
def fetchMin : Feed → Except String (List Entry) := fun _ => Except.ok [entryMin]

/-- A second minimal relevant entry fixture with a distinct URL and
the same text, hence the same score, as entryMin. -/
def entryMin2 : Entry :=
  { link := some "u2", title := some "farmer", summary := none, description := none,
    published_parsed := none, published := none }

/-- Fetch oracle fixture serving the two equal-score minimal entries
in discovery order. -/
def fetchMin12 : Feed → Except String (List Entry) :=
  fun _ => Except.ok [entryMin, entryMin2]

/-- Candidate article produced from entryMin by feedPlain. -/
def articleFarm1 : Article :=
  { title := "farmer", url := "u1", description := "", date := none, source := "S",
    source_type := "t", published_time := "", score := 8, is_kerala_focused := false,
    category := "General News" }

/-- Candidate article produced from entryMin2 by feedPlain. -/
def articleFarm2 : Article :=
  { title := "farmer", url := "u2", description := "", date := none, source := "S",
    source_type := "t", published_time := "", score := 8, is_kerala_focused := false,
    category := "General News" }

/-- Government entry fixtures with equal scores and equal dates. -/
def gEntryC : Entry :=
  { link := some "http://g/c", title := some "Government scheme C",
    summary := none, description := none,
    published_parsed := some (2022, 1, 1, 0, 0, 0), published := none }

/-- Second government entry fixture with the same score and date as
gEntryC. -/
def gEntryD : Entry :=
  { link := some "http://g/d", title := some "Government scheme D",
    summary := none, description := none,
    published_parsed := some (2022, 1, 1, 0, 0, 0), published := none }

/-- Fetch oracle fixture serving gEntryC then gEntryD. -/
def gFetchCD : GovFeed → Except String (List Entry) := fun _ => Except.ok [gEntryC, gEntryD]

/-- Government candidate produced from gEntryC. -/
def govArtC : GovArticle :=
  { title := "Government scheme C", url := "http://g/c", description := "",
    date := some "2022-01-01T00:00:00+00:00", source := "G", published_time := "",
    score := 20 }

/-- Government candidate produced from gEntryD. -/
def govArtD : GovArticle :=
  { title := "Government scheme D", url := "http://g/d", description := "",
    date := some "2022-01-01T00:00:00+00:00", source := "G", published_time := "",
    score := 20 }

/-- Summarizer oracle fixture that always succeeds. -/
def oracleGood : String → SummResult := fun _ => SummResult.resp (some "Good summary")

/-- Entry fixture with no title key. -/
def entryNoTitle : Entry :=
  { link := some "u3", title := none, summary := some "farmer scheme", description := none,
    published_parsed := none, published := none }

/-! Helper lemmas about the text primitives. -/

theorem toList_append (s t : String) : (s ++ t).toList = s.toList ++ t.toList :=
  String.data_append s t

theorem isPrefixOf_append_of {p t u : List Char} (h : p.isPrefixOf t = true) :
    p.isPrefixOf (t ++ u) = true := by
  induction p generalizing t with
  | nil => simp [List.isPrefixOf]
  | cons a as ih =>
    cases t with
    | nil => simp [List.isPrefixOf] at h
    | cons b bs =>
      simp only [List.isPrefixOf, List.cons_append, Bool.and_eq_true] at h ⊢
      exact ⟨h.1, ih h.2⟩

theorem isPrefixOf_self_append (l t : List Char) : l.isPrefixOf (l ++ t) = true := by
  induction l with
  | nil => simp [List.isPrefixOf]
  | cons a as ih => simp [List.isPrefixOf, ih]

theorem containsSub_nil_pat (t : List Char) : containsSub t [] = true := by
  induction t with
  | nil => rfl
  | cons c rest ih => simp [containsSub, List.isPrefixOf]

theorem containsSub_append_right {t p : List Char} (u : List Char)
    (h : containsSub t p = true) : containsSub (t ++ u) p = true := by
  induction t with
  | nil =>
    simp only [containsSub, List.isEmpty_iff] at h
    subst h
    simpa using containsSub_nil_pat u
  | cons c rest ih =>
    simp only [containsSub, Bool.or_eq_true, List.cons_append] at h ⊢
    rcases h with h | h
    · exact Or.inl (isPrefixOf_append_of h)
    · exact Or.inr (ih h)

theorem containsSub_self_suffix (t p : List Char) : containsSub (t ++ p) p = true := by
  induction t with
  | nil =>
    cases p with
    | nil => rfl
    | cons c r =>
      have hp : (c :: r).isPrefixOf (c :: r) = true := by
        have h := isPrefixOf_self_append (c :: r) []
        simp only [List.append_nil] at h
        exact h
      simp [containsSub, hp]
  | cons c ts ih =>
    simp [containsSub, ih]

theorem countP_lt_of_mem {α : Type} {p q : α → Bool} :
    ∀ {l : List α} {a : α}, a ∈ l → (∀ x ∈ l, p x = true → q x = true) →
      p a = false → q a = true → l.countP p < l.countP q := by
  intro l
  induction l with
  | nil => intro a ha; cases ha
  | cons b bs ih =>
    intro a ha hmono hpa hqa
    have hmono' : ∀ x ∈ bs, p x = true → q x = true :=
      fun x hx => hmono x (List.mem_cons_of_mem _ hx)
    rcases List.mem_cons.mp ha with rfl | hmem
    · have hle : bs.countP p ≤ bs.countP q := List.countP_mono_left hmono'
      rw [List.countP_cons, List.countP_cons, hpa, hqa]
      simp only [Bool.false_eq_true, if_false, if_true, Nat.add_zero]
      omega
    · have hlt := ih hmem hmono' hpa hqa
      rw [List.countP_cons, List.countP_cons]
      by_cases hpb : p b = true
      · rw [if_pos hpb, if_pos (hmono b (List.mem_cons_self b bs) hpb)]
        omega
      · rw [if_neg hpb]
        split <;> omega

/-! Helper lemmas about the code-point order on character lists. -/

theorem strLtCh_asymm : ∀ {a b : List Char}, strLtCh a b = true → strLtCh b a = false := by
  intro a
  induction a with
  | nil =>
    intro b h
    cases b with
    | nil => simp [strLtCh] at h
    | cons y ys => rfl
  | cons x xs ih =>
    intro b h
    cases b with
    | nil => simp [strLtCh] at h
    | cons y ys =>
      simp only [strLtCh] at h ⊢
      by_cases hxy : x = y
      · subst hxy
        simpa using ih (by simpa using h)
      · rw [if_neg hxy] at h
        rw [if_neg (fun hyx => hxy hyx.symm)]
        have hlt : x < y := of_decide_eq_true h
        simpa using not_lt_of_gt hlt

theorem strLtCh_trans : ∀ {a b c : List Char},
    strLtCh a b = true → strLtCh b c = true → strLtCh a c = true := by
  intro a
  induction a with
  | nil =>
    intro b c h₁ h₂
    cases b with
    | nil => simp [strLtCh] at h₁
    | cons y ys =>
      cases c with
      | nil => simp [strLtCh] at h₂
      | cons z zs => rfl
  | cons x xs ih =>
    intro b c h₁ h₂
    cases b with
    | nil => simp [strLtCh] at h₁
    | cons y ys =>
      cases c with
      | nil => simp [strLtCh] at h₂
      | cons z zs =>
        simp only [strLtCh] at h₁ h₂ ⊢
        by_cases hxy : x = y <;> by_cases hyz : y = z
        · subst hxy; subst hyz
          rw [if_pos rfl] at h₁ h₂ ⊢
          exact ih h₁ h₂
        · subst hxy
          rw [if_pos rfl] at h₁
          rw [if_neg hyz] at h₂ ⊢
          exact h₂
        · subst hyz
          rw [if_neg hxy] at h₁ ⊢
          exact h₁
        · rw [if_neg hxy] at h₁
          rw [if_neg hyz] at h₂
          have hlt₁ : x < y := of_decide_eq_true h₁
          have hlt₂ : y < z := of_decide_eq_true h₂
          have hlt : x < z := lt_trans hlt₁ hlt₂
          have hxz : x ≠ z := fun he => absurd (he ▸ hlt) (lt_irrefl z)
          rw [if_neg hxz]
          simpa using hlt

theorem strLtCh_connex : ∀ {a b : List Char},
    strLtCh a b = false → strLtCh b a = false → a = b := by
  intro a
  induction a with
  | nil =>
    intro b h₁ _
    cases b with
    | nil => rfl
    | cons y ys => simp [strLtCh] at h₁
  | cons x xs ih =>
    intro b h₁ h₂
    cases b with
    | nil => simp [strLtCh] at h₂
    | cons y ys =>
      simp only [strLtCh] at h₁ h₂
      by_cases hxy : x = y
      · subst hxy
        rw [if_pos rfl] at h₁ h₂
        rw [ih h₁ h₂]
      · rw [if_neg hxy] at h₁
        rw [if_neg (fun hyx => hxy hyx.symm)] at h₂
        have hn₁ : ¬ x < y := by simpa using h₁
        have hn₂ : ¬ y < x := by simpa using h₂
        rcases lt_trichotomy x y with h | h | h
        · exact absurd h hn₁
        · exact absurd h hxy
        · exact absurd h hn₂

theorem strLeCh_total (a b : List Char) : strLeCh a b = true ∨ strLeCh b a = true := by
  unfold strLeCh
  by_cases h : strLtCh b a = true
  · right
    rw [strLtCh_asymm h]
    rfl
  · left
    rw [Bool.not_eq_true] at h
    rw [h]
    rfl

theorem strLeCh_trans {a b c : List Char} (h₁ : strLeCh a b = true)
    (h₂ : strLeCh b c = true) : strLeCh a c = true := by
  simp only [strLeCh, Bool.not_eq_true'] at h₁ h₂ ⊢
  by_contra hca
  have hca' : strLtCh c a = true := by simpa using hca
  by_cases hab : strLtCh a b = true
  · have hcb : strLtCh c b = true := strLtCh_trans hca' hab
    rw [h₂] at hcb
    cases hcb
  · have hab' : strLtCh a b = false := by simpa using hab
    have heq : a = b := strLtCh_connex hab' h₁
    subst heq
    rw [h₂] at hca'
    cases hca'

/-! Total preorder facts for the sort relations. -/

theorem feedSortRel_total (a b : Feed) : feedSortRel a b ∨ feedSortRel b a :=
  (Nat.le_total b.priority a.priority).imp id id

theorem feedSortRel_trans {a b c : Feed} (h₁ : feedSortRel a b) (h₂ : feedSortRel b c) :
    feedSortRel a c := Nat.le_trans h₂ h₁

theorem appSortRel_total (a b : Article) : appSortRel a b ∨ appSortRel b a :=
  (Nat.le_total b.score a.score).imp id id

theorem appSortRel_trans {a b c : Article} (h₁ : appSortRel a b) (h₂ : appSortRel b c) :
    appSortRel a c := Nat.le_trans h₂ h₁

theorem govSortRel_total (a b : GovArticle) : govSortRel a b ∨ govSortRel b a := by
  unfold govSortRel
  rcases Nat.lt_trichotomy a.score b.score with h | h | h
  · right; exact Or.inl h
  · rcases strLeCh_total (b.date.getD "").toList (a.date.getD "").toList with hd | hd
    · left; exact Or.inr ⟨h, hd⟩
    · right; exact Or.inr ⟨h.symm, hd⟩
  · left; exact Or.inl h

theorem govSortRel_trans {a b c : GovArticle} (h₁ : govSortRel a b) (h₂ : govSortRel b c) :
    govSortRel a c := by
  unfold govSortRel at h₁ h₂ ⊢
  rcases h₁ with h₁ | ⟨he₁, hd₁⟩
  · rcases h₂ with h₂ | ⟨he₂, _⟩
    · exact Or.inl (Nat.lt_trans h₂ h₁)
    · exact Or.inl (he₂ ▸ h₁)
  · rcases h₂ with h₂ | ⟨he₂, hd₂⟩
    · exact Or.inl (he₁ ▸ h₂)
    · exact Or.inr ⟨he₁.trans he₂, strLeCh_trans hd₂ hd₁⟩

/-! Helper lemmas about the scorers. -/

theorem countMatches_le_append (T u : List Char) (kws : List String) :
    countMatches T kws ≤ countMatches (T ++ u) kws :=
  List.countP_mono_left (fun _ _ hpx => containsSub_append_right u hpx)

theorem countMatches_lt_append (T : List Char) (kw : String) (kws : List String)
    (hmem : kw ∈ kws) (hnew : containsSub T kw.toList = false) :
    countMatches T kws < countMatches (T ++ ' ' :: kw.toList) kws := by
  apply countP_lt_of_mem hmem (fun x _ hpx => containsSub_append_right _ hpx) hnew
  show containsSub (T ++ ' ' :: kw.toList) kw.toList = true
  have h := containsSub_self_suffix (T ++ [' ']) kw.toList
  simpa using h

theorem orTwoCond_mono {T : List Char} (u : List Char) {p₁ p₂ : List Char}
    (h : (containsSub T p₁ || containsSub T p₂) = true) :
    (containsSub (T ++ u) p₁ || containsSub (T ++ u) p₂) = true := by
  simp only [Bool.or_eq_true] at h ⊢
  rcases h with h | h
  · exact Or.inl (containsSub_append_right u h)
  · exact Or.inr (containsSub_append_right u h)

theorem orThreeCond_mono {T : List Char} (u : List Char) {p₁ p₂ p₃ : List Char}
    (h : (containsSub T p₁ || containsSub T p₂ || containsSub T p₃) = true) :
    (containsSub (T ++ u) p₁ || containsSub (T ++ u) p₂ || containsSub (T ++ u) p₃) = true := by
  simp only [Bool.or_eq_true] at h ⊢
  rcases h with h | h
  · exact Or.inl (Bool.or_eq_true _ _ ▸ orTwoCond_mono u (Bool.or_eq_true _ _ ▸ h))
  · exact Or.inr (containsSub_append_right u h)

theorem calculate_enhanced_score_eq (title description : String) (f : Feed) (y : String) :
    calculate_enhanced_score title description f y
      = f.priority + 15 * countMatches (textOf title description) score_kerala_keywords
        + 10 * countMatches (textOf title description) high_priority_keywords
        + 3 * countMatches (textOf title description) medium_priority_keywords
        + (if (containsSub (textOf title description) "today".toList
            || containsSub (textOf title description) y.toList
            || containsSub (textOf title description) "2025".toList) = true then 5 else 0) := by
  simp only [calculate_enhanced_score]
  by_cases h : (containsSub (textOf title description) "today".toList
      || containsSub (textOf title description) y.toList
      || containsSub (textOf title description) "2025".toList) = true
  · rw [if_pos h, if_pos h]
  · rw [if_neg h, if_neg h]
    omega

theorem calculate_relevance_score_eq (title description : String) :
    calculate_relevance_score title description
      = 10 * countMatches (textOf title description) gov_high_priority_keywords
        + 5 * countMatches (textOf title description) gov_medium_priority_keywords
        + (if (containsSub (textOf title description) "today".toList
            || containsSub (textOf title description) "2025".toList) = true then 3 else 0) := by
  simp only [calculate_relevance_score]
  by_cases h : (containsSub (textOf title description) "today".toList
      || containsSub (textOf title description) "2025".toList) = true
  · rw [if_pos h, if_pos h]
  · rw [if_neg h, if_neg h]
    omega

theorem textOf_append_keyword (title description kw : String)
    (hlower : kw.toList.map Char.toLower = kw.toList) :
    textOf title (description ++ " " ++ kw)
      = textOf title description ++ ' ' :: kw.toList := by
  simp only [textOf, lowerText, toList_append, List.map_append, List.append_assoc, hlower]
  rfl

/-! Claim theorems. -/

/-- C5: the claim states that the score function is pure in (title,
description, source metadata) alone, with no dependence on the clock.
The enhanced scorer of src/app.py line 230 reads the current calendar
year from the clock and awards the recency bonus when that year
appears in the text, so two evaluations of the same inputs in
different process clock states return different integers.  This closed
counterexample evaluates the scorer on one fixed input under the 2026
clock and under the 2025 clock and obtains different scores. -/
theorem C5_counterexample :
    calculate_enhanced_score "Farm outlook 2026" "" feedPlain "2026"
      ≠ calculate_enhanced_score "Farm outlook 2026" "" feedPlain "2025" := by
  decide

/-- C5 (amended): the score is a pure function of title, description,
source metadata and the current calendar year read from the clock.
Two evaluations agree whenever the year token test agrees between the
two clock states, and in any two clock states the scores differ by at
most the recency bonus of five. -/
theorem C5_amended_score_pure (title description : String) (source_info : Feed)
    (y₁ y₂ : String) :
    (containsSub (textOf title description) y₁.toList
        = containsSub (textOf title description) y₂.toList →
      calculate_enhanced_score title description source_info y₁
        = calculate_enhanced_score title description source_info y₂)
    ∧ calculate_enhanced_score title description source_info y₁
        ≤ calculate_enhanced_score title description source_info y₂ + 5 := by
  constructor
  · intro h
    simp only [calculate_enhanced_score, h]
  · rw [calculate_enhanced_score_eq, calculate_enhanced_score_eq]
    split <;> split <;> omega

/-- C5 witness: the amended theorem instantiated at one concrete
input, with the year agreement hypothesis discharged by computation. -/
theorem C5_amended_witness :
    calculate_enhanced_score "Kerala farm news" "" feedPlain "2024"
      = calculate_enhanced_score "Kerala farm news" "" feedPlain "2023" :=
  (C5_amended_score_pure "Kerala farm news" "" feedPlain "2024" "2023").1 (by decide)

/-- C6: appending one additional matching high-priority keyword to the
description, lowercase as every keyword of the fixed lists is, and not
already occurring in the text, strictly increases the computed score,
all else equal.  The statement covers both scorers: the enhanced
scorer of src/app.py lines 210-218 with its eleven high-priority
phrases, and the government scorer of src/gov_farm.py lines 231-235
with its six. -/
theorem C6_high_priority_strictly_increases (title description kw : String)
    (source_info : Feed) (current_year : String)
    (hlower : kw.toList.map Char.toLower = kw.toList)
    (hnew : containsSub (textOf title description) kw.toList = false) :
    (kw ∈ high_priority_keywords →
      calculate_enhanced_score title description source_info current_year
        < calculate_enhanced_score title (description ++ " " ++ kw) source_info current_year)
    ∧ (kw ∈ gov_high_priority_keywords →
      calculate_relevance_score title description
        < calculate_relevance_score title (description ++ " " ++ kw)) := by
  have htext := textOf_append_keyword title description kw hlower
  constructor
  · intro hmem
    rw [calculate_enhanced_score_eq, calculate_enhanced_score_eq, htext]
    have h15 := countMatches_le_append (textOf title description) (' ' :: kw.toList)
      score_kerala_keywords
    have h10 := countMatches_lt_append (textOf title description) kw
      high_priority_keywords hmem hnew
    have h3 := countMatches_le_append (textOf title description) (' ' :: kw.toList)
      medium_priority_keywords
    by_cases hc : (containsSub (textOf title description) "today".toList
        || containsSub (textOf title description) current_year.toList
        || containsSub (textOf title description) "2025".toList) = true
    · rw [if_pos hc, if_pos (orThreeCond_mono (' ' :: kw.toList) hc)]
      omega
    · rw [if_neg hc]
      split <;> omega
  · intro hmem
    rw [calculate_relevance_score_eq, calculate_relevance_score_eq, htext]
    have h10 := countMatches_lt_append (textOf title description) kw
      gov_high_priority_keywords hmem hnew
    have h5 := countMatches_le_append (textOf title description) (' ' :: kw.toList)
      gov_medium_priority_keywords
    by_cases hc : (containsSub (textOf title description) "today".toList
        || containsSub (textOf title description) "2025".toList) = true
    · rw [if_pos hc, if_pos (orTwoCond_mono (' ' :: kw.toList) hc)]
      omega
    · rw [if_neg hc]
      split <;> omega

/-- C6 witness: appending the keyword pm kisan, absent from the
original text, strictly increases both scores on a concrete input. -/
theorem C6_witness :
    calculate_enhanced_score "Crop news" "for farmers" feedPlain "2024"
      < calculate_enhanced_score "Crop news" ("for farmers" ++ " " ++ "pm kisan") feedPlain "2024"
    ∧ calculate_relevance_score "Crop news" "for farmers"
      < calculate_relevance_score "Crop news" ("for farmers" ++ " " ++ "pm kisan") :=
  ⟨(C6_high_priority_strictly_increases "Crop news" "for farmers" "pm kisan" feedPlain "2024"
      (by decide) (by decide)).1 (by decide),
   (C6_high_priority_strictly_increases "Crop news" "for farmers" "pm kisan" feedPlain "2024"
      (by decide) (by decide)).2 (by decide)⟩

/-- C8: a fetch failure on any one source is recovered locally.  The
per-source loop bodies of src/app.py lines 251-296 and src/gov_farm.py
lines 157-193 catch every exception of the fetch and parse step, so a
run with any set of failing sources is literally equal to the run in
which those sources return zero entries: the failing source
contributes nothing, every other source is processed unchanged, and
the run returns normally.  The statement covers both pipelines. -/
theorem C8_fetch_failure_isolated (current_year fetchTimestamp : String)
    (timeAt : Nat → Nat) (modelAvailable : Bool) (oracle : String → SummResult)
    (fetch : Feed → Except String (List Entry)) (feeds : List Feed) (max_articles : Nat)
    (govTimestamp : String) (govModelAvailable : Bool) (govOracle : String → SummResult)
    (govFetch : GovFeed → Except String (List Entry)) (govFeeds : List GovFeed) :
    fetch_enhanced_articles current_year timeAt fetchTimestamp modelAvailable oracle
        (maskFailures fetch) feeds max_articles
      = fetch_enhanced_articles current_year timeAt fetchTimestamp modelAvailable oracle
        fetch feeds max_articles
    ∧ fetch_top_10_articles govTimestamp govModelAvailable govOracle
        (govMaskFailures govFetch) govFeeds
      = fetch_top_10_articles govTimestamp govModelAvailable govOracle govFetch govFeeds := by
  have happ : processFeed current_year (maskFailures fetch)
      = processFeed current_year fetch := by
    funext st fd
    simp only [processFeed, maskFailures]
    cases fetch fd with
    | error e => rfl
    | ok es => rfl
  have hgov : govProcessFeed (govMaskFailures govFetch) = govProcessFeed govFetch := by
    funext st fd
    simp only [govProcessFeed, govMaskFailures]
    cases govFetch fd with
    | error e => rfl
    | ok es => rfl
  have hcand : appCandidates current_year (maskFailures fetch) feeds
      = appCandidates current_year fetch feeds := by
    unfold appCandidates
    rw [happ]
  have hgcand : govCandidates (govMaskFailures govFetch) govFeeds
      = govCandidates govFetch govFeeds := by
    unfold govCandidates
    rw [hgov]
  constructor
  · simp only [fetch_enhanced_articles, appTopArticles, hcand]
  · simp only [fetch_top_10_articles, govTopArticles, hgcand]

/-- C9 counterexample: the claim states that no externally visible
article carries the internal score field.  The government enrichment
loop of src/gov_farm.py lines 204-216 never removes the score key, so
this concrete run returns a Collection whose two articles both carry
their scores. -/
theorem C9_counterexample :
    (fetch_top_10_articles "TS" false oracleNone gFetchAB [feedGov]).articles.map
      (fun a => a.score) = [some 20, some 20] := by
  decide

/-- C9 (amended): the enhanced aggregator pops the score key from
every article before returning (src/app.py line 325), so none of its
returned articles carries a score; the government aggregator performs
no such pop, so every one of its returned articles still carries its
score. -/
theorem C9_amended_score_dropped (current_year fetchTimestamp : String) (timeAt : Nat → Nat)
    (modelAvailable : Bool) (oracle : String → SummResult)
    (fetch : Feed → Except String (List Entry)) (feeds : List Feed) (max_articles : Nat)
    (govTimestamp : String) (govModelAvailable : Bool) (govOracle : String → SummResult)
    (govFetch : GovFeed → Except String (List Entry)) (govFeeds : List GovFeed) :
    (∀ a ∈ (fetch_enhanced_articles current_year timeAt fetchTimestamp modelAvailable
        oracle fetch feeds max_articles).articles, a.score = none)
    ∧ (∀ a ∈ (fetch_top_10_articles govTimestamp govModelAvailable govOracle
        govFetch govFeeds).articles, a.score.isSome = true) := by
  constructor
  · intro a ha
    simp only [fetch_enhanced_articles] at ha
    split at ha
    · simp [get_empty_response] at ha
    · rcases List.mem_map.mp ha with ⟨p, _, rfl⟩
      rfl
  · intro a ha
    simp only [fetch_top_10_articles] at ha
    rcases List.mem_map.mp ha with ⟨p, _, rfl⟩
    rfl

/-- C9 witness: the amended theorem applied to one concrete article of
each pipeline. -/
theorem C9_amended_witness :
    ({ title := "farmer", url := "u1", description := "", date := none, source := "S",
       source_type := "t", published_time := "", score := none, is_kerala_focused := false,
       category := "General News", ai_summary := "🤖 AI service not available", id := 1,
       reel_id := "reel_0_1" } : FinalArticle).score = none
    ∧ ({ title := "Government scheme A", url := "http://g/a", description := "",
         date := some "2020-01-01T00:00:00+00:00", source := "G", published_time := "",
         score := some 20, ai_summary := "🤖 AI service not available",
         id := 1 } : GovFinalArticle).score.isSome = true :=
  ⟨(C9_amended_score_dropped "2025" "TS" (fun _ => 0) false oracleNone fetchMin [feedPlain] 15
      "TS" false oracleNone gFetchA [feedGov]).1 _ (by decide),
   (C9_amended_score_dropped "2025" "TS" (fun _ => 0) false oracleNone fetchMin [feedPlain] 15
      "TS" false oracleNone gFetchA [feedGov]).2 _ (by decide)⟩

/-- C2 counterexample: the claim states that total_articles always
equals the length of the returned article list.  The government
aggregator hardcodes total_articles to ten at src/gov_farm.py line
221, so a run with a single surviving candidate reports ten while
returning one article. -/
theorem C2_counterexample :
    (fetch_top_10_articles "TS" false oracleNone gFetchA [feedGov]).total_articles
      ≠ (fetch_top_10_articles "TS" false oracleNone gFetchA [feedGov]).articles.length := by
  decide

/-- C2 (amended): in both pipelines the returned article list has
length exactly the minimum of the top-N parameter and the number of
candidates that survived filtering (with N fixed at ten in the
government variant); the enhanced aggregator reports total_articles
equal to that length, while the government aggregator reports the
constant ten regardless of the actual length. -/
theorem C2_amended_topn_bound (current_year fetchTimestamp : String) (timeAt : Nat → Nat)
    (modelAvailable : Bool) (oracle : String → SummResult)
    (fetch : Feed → Except String (List Entry)) (feeds : List Feed) (max_articles : Nat)
    (govTimestamp : String) (govModelAvailable : Bool) (govOracle : String → SummResult)
    (govFetch : GovFeed → Except String (List Entry)) (govFeeds : List GovFeed) :
    ((fetch_enhanced_articles current_year timeAt fetchTimestamp modelAvailable oracle
        fetch feeds max_articles).articles.length
      = min max_articles (appCandidates current_year fetch feeds).all_articles.length
    ∧ (fetch_enhanced_articles current_year timeAt fetchTimestamp modelAvailable oracle
        fetch feeds max_articles).total_articles
      = (fetch_enhanced_articles current_year timeAt fetchTimestamp modelAvailable oracle
        fetch feeds max_articles).articles.length)
    ∧ ((fetch_top_10_articles govTimestamp govModelAvailable govOracle
        govFetch govFeeds).articles.length
      = min 10 (govCandidates govFetch govFeeds).all_articles.length
    ∧ (fetch_top_10_articles govTimestamp govModelAvailable govOracle
        govFetch govFeeds).total_articles = 10) := by
  refine ⟨⟨?_, ?_⟩, ?_, rfl⟩
  · simp only [fetch_enhanced_articles]
    split
    · rename_i hempty
      simp [get_empty_response, hempty]
    · simp only [List.length_map, List.enum_length, appTopArticles,
        List.length_take, List.length_insertionSort]
  · simp only [fetch_enhanced_articles]
    split
    · simp [get_empty_response]
    · rfl
  · simp only [fetch_top_10_articles, govTopArticles, List.length_map, List.enum_length,
      List.length_take, List.length_insertionSort]

/-! Helper lemmas for the deduplication invariant. -/

theorem processEntry_urlInv (current_year : String) (fd : Feed) (e : Entry) {st : RunState}
    (h : urlInv st) : urlInv (processEntry current_year fd st e) := by
  simp only [processEntry]
  by_cases hg : (e.link.getD "" = "" ∨ e.link.getD "" ∈ st.processed_urls)
  · rw [if_pos hg]
    exact h
  · rw [if_neg hg]
    push_neg at hg
    split
    · constructor
      · intro a ha
        rcases List.mem_append.mp ha with ha | ha
        · exact List.mem_cons_of_mem _ (h.1 a ha)
        · rw [List.mem_singleton.mp ha]
          exact List.mem_cons_self _ _
      · rw [List.pairwise_append]
        refine ⟨h.2, List.pairwise_singleton _ _, ?_⟩
        intro a ha b hb
        rw [List.mem_singleton.mp hb]
        intro he
        have hu : a.url = e.link.getD "" := he
        exact hg.2 (hu ▸ h.1 a ha)
    · exact ⟨fun a ha => List.mem_cons_of_mem _ (h.1 a ha), h.2⟩

theorem foldl_processEntry_urlInv (current_year : String) (fd : Feed) :
    ∀ (es : List Entry) {st : RunState}, urlInv st →
      urlInv (es.foldl (processEntry current_year fd) st) := by
  intro es
  induction es with
  | nil => intro st h; exact h
  | cons e rest ih =>
    intro st h
    exact ih (processEntry_urlInv current_year fd e h)

theorem foldl_processFeed_urlInv (current_year : String)
    (fetch : Feed → Except String (List Entry)) :
    ∀ (fds : List Feed) {st : RunState}, urlInv st →
      urlInv (fds.foldl (processFeed current_year fetch) st) := by
  intro fds
  induction fds with
  | nil => intro st h; exact h
  | cons fd rest ih =>
    intro st h
    apply ih
    simp only [processFeed]
    cases fetch fd with
    | error e => exact h
    | ok es => exact foldl_processEntry_urlInv current_year fd _ h

theorem appCandidates_urlInv (current_year : String)
    (fetch : Feed → Except String (List Entry)) (feeds : List Feed) :
    urlInv (appCandidates current_year fetch feeds) :=
  foldl_processFeed_urlInv current_year fetch (sortFeedsByPriority feeds)
    ⟨fun a ha => absurd ha (List.not_mem_nil a), List.Pairwise.nil⟩

theorem govProcessEntry_urlInv (fd : GovFeed) (e : Entry) {st : GovRunState}
    (h : govUrlInv st) : govUrlInv (govProcessEntry fd st e) := by
  simp only [govProcessEntry]
  by_cases hg : (e.link.getD "" = "" ∨ e.link.getD "" ∈ st.processed_urls)
  · rw [if_pos hg]
    exact h
  · rw [if_neg hg]
    push_neg at hg
    split
    · constructor
      · intro a ha
        rcases List.mem_append.mp ha with ha | ha
        · exact List.mem_cons_of_mem _ (h.1 a ha)
        · rw [List.mem_singleton.mp ha]
          exact List.mem_cons_self _ _
      · rw [List.pairwise_append]
        refine ⟨h.2, List.pairwise_singleton _ _, ?_⟩
        intro a ha b hb
        rw [List.mem_singleton.mp hb]
        intro he
        have hu : a.url = e.link.getD "" := he
        exact hg.2 (hu ▸ h.1 a ha)
    · exact ⟨fun a ha => List.mem_cons_of_mem _ (h.1 a ha), h.2⟩

theorem foldl_govProcessEntry_urlInv (fd : GovFeed) :
    ∀ (es : List Entry) {st : GovRunState}, govUrlInv st →
      govUrlInv (es.foldl (govProcessEntry fd) st) := by
  intro es
  induction es with
  | nil => intro st h; exact h
  | cons e rest ih =>
    intro st h
    exact ih (govProcessEntry_urlInv fd e h)

theorem foldl_govProcessFeed_urlInv (fetch : GovFeed → Except String (List Entry)) :
    ∀ (fds : List GovFeed) {st : GovRunState}, govUrlInv st →
      govUrlInv (fds.foldl (govProcessFeed fetch) st) := by
  intro fds
  induction fds with
  | nil => intro st h; exact h
  | cons fd rest ih =>
    intro st h
    apply ih
    simp only [govProcessFeed]
    cases fetch fd with
    | error e => exact h
    | ok es => exact foldl_govProcessEntry_urlInv fd _ h

theorem govCandidates_urlInv (fetch : GovFeed → Except String (List Entry))
    (feeds : List GovFeed) : govUrlInv (govCandidates fetch feeds) :=
  foldl_govProcessFeed_urlInv fetch feeds
    ⟨fun a ha => absurd ha (List.not_mem_nil a), List.Pairwise.nil⟩

theorem enum_map_snd_comp {α β : Type} (l : List α) (g : α → β) :
    l.enum.map (fun p => g p.2) = l.map g := by
  rw [show (fun p : Nat × α => g p.2) = g ∘ Prod.snd from rfl, ← List.map_map,
    List.enum_map_snd]

/-- C1: canonical URLs are pairwise distinct in the working candidate
set and in the final Collection of both pipelines (the first four
conjuncts), because each fetch loop consults a global seen set in
source processing order, which for the enhanced aggregator is
descending feed priority (sortFeedsByPriority inside appCandidates).
The last three conjuncts state first-occurrence-wins exactly as the
loops implement it: processing an entry whose URL was already seen
leaves the working state completely unchanged whether or not the
earlier occurrence was relevant, and a fresh entry that fails the
relevance check adds no candidate while still marking its URL seen, so
a duplicate of a discarded first occurrence is also discarded. -/
theorem C1_dedup_first_wins
    (current_year fetchTimestamp : String) (timeAt : Nat → Nat) (modelAvailable : Bool)
    (oracle : String → SummResult) (fetch : Feed → Except String (List Entry))
    (feeds : List Feed) (max_articles : Nat)
    (govTimestamp : String) (govModelAvailable : Bool) (govOracle : String → SummResult)
    (govFetch : GovFeed → Except String (List Entry)) (govFeeds : List GovFeed)
    (fd : Feed) (e₁ e₂ : Entry) (st₁ st₂ : RunState)
    (h₁ : e₁.link.getD "" ∈ st₁.processed_urls)
    (h₂a : e₂.link.getD "" ≠ "")
    (h₂b : e₂.link.getD "" ∉ st₂.processed_urls)
    (h₂c : is_relevant_article (e₂.title.getD "No Title")
        (e₂.summary.getD (e₂.description.getD "")) fd.type = false) :
    ((fetch_enhanced_articles current_year timeAt fetchTimestamp modelAvailable oracle
        fetch feeds max_articles).articles.map (fun a => a.url)).Pairwise (fun u v => u ≠ v)
    ∧ ((appCandidates current_year fetch feeds).all_articles.map
        (fun a => a.url)).Pairwise (fun u v => u ≠ v)
    ∧ ((fetch_top_10_articles govTimestamp govModelAvailable govOracle govFetch
        govFeeds).articles.map (fun a => a.url)).Pairwise (fun u v => u ≠ v)
    ∧ ((govCandidates govFetch govFeeds).all_articles.map
        (fun a => a.url)).Pairwise (fun u v => u ≠ v)
    ∧ processEntry current_year fd st₁ e₁ = st₁
    ∧ (processEntry current_year fd st₂ e₂).all_articles = st₂.all_articles
    ∧ e₂.link.getD "" ∈ (processEntry current_year fd st₂ e₂).processed_urls := by
  have hinv := appCandidates_urlInv current_year fetch feeds
  have hginv := govCandidates_urlInv govFetch govFeeds
  refine ⟨?_, List.pairwise_map.mpr hinv.2, ?_, List.pairwise_map.mpr hginv.2,
    ?_, ?_, ?_⟩
  · simp only [fetch_enhanced_articles]
    split
    · simp [get_empty_response]
    · have hsorted : (List.insertionSort appSortRel
          (appCandidates current_year fetch feeds).all_articles).Pairwise
          (fun a b => a.url ≠ b.url) :=
        (List.Perm.pairwise_iff (fun h => h.symm)
          (List.perm_insertionSort appSortRel _)).mpr hinv.2
      have htop : (appTopArticles current_year fetch feeds max_articles).Pairwise
          (fun a b => a.url ≠ b.url) :=
        List.Pairwise.sublist (List.take_sublist _ _) hsorted
      have hmap : (((appTopArticles current_year fetch feeds max_articles).enum.map
            (fun p => enrichArticle modelAvailable oracle timeAt (p.1 + 1) p.2)).map
            (fun a => a.url))
          = (appTopArticles current_year fetch feeds max_articles).map (fun a => a.url) := by
        rw [List.map_map]
        exact enum_map_snd_comp (appTopArticles current_year fetch feeds max_articles)
          (fun a : Article => a.url)
      rw [hmap]
      exact List.pairwise_map.mpr htop
  · simp only [fetch_top_10_articles]
    have hsorted : (List.insertionSort govSortRel
        (govCandidates govFetch govFeeds).all_articles).Pairwise
        (fun a b => a.url ≠ b.url) :=
      (List.Perm.pairwise_iff (fun h => h.symm)
        (List.perm_insertionSort govSortRel _)).mpr hginv.2
    have htop : (govTopArticles govFetch govFeeds).Pairwise (fun a b => a.url ≠ b.url) :=
      List.Pairwise.sublist (List.take_sublist _ _) hsorted
    have hmap : (((govTopArticles govFetch govFeeds).enum.map
          (fun p => govEnrichArticle govModelAvailable govOracle (p.1 + 1) p.2)).map
          (fun a => a.url))
        = (govTopArticles govFetch govFeeds).map (fun a => a.url) := by
      rw [List.map_map]
      exact enum_map_snd_comp (govTopArticles govFetch govFeeds)
        (fun a : GovArticle => a.url)
    rw [hmap]
    exact List.pairwise_map.mpr htop
  · simp only [processEntry]
    rw [if_pos (Or.inr h₁)]
  · simp only [processEntry]
    rw [if_neg (fun hor => hor.elim h₂a h₂b), if_neg (by simp [h₂c])]
  · simp only [processEntry]
    rw [if_neg (fun hor => hor.elim h₂a h₂b)]
    split
    · exact List.mem_cons_self _ _
    · exact List.mem_cons_self _ _

/-- C1 witness: processing an entry whose URL is already in the seen
set leaves the working state unchanged, at one concrete input. -/
theorem C1_witness :
    processEntry "2025" feedPlain ⟨["u1"], []⟩ entryMin = ⟨["u1"], []⟩ :=
  (C1_dedup_first_wins "2025" "TS" (fun _ => 0) false oracleNone fetchMin [feedPlain] 15
      "TS" false oracleNone gFetchA [feedGov] feedPlain entryMin entrySport
      ⟨["u1"], []⟩ ⟨[], []⟩ (by decide) (by decide) (by decide) (by decide)).2.2.2.2.1

theorem strLtCh_irrefl : ∀ l : List Char, strLtCh l l = false := by
  intro l
  induction l with
  | nil => rfl
  | cons c rest ih => simp [strLtCh, ih]

theorem strLeCh_refl (l : List Char) : strLeCh l l = true := by
  simp [strLeCh, strLtCh_irrefl]

/-- C3 counterexample: the claim states that equal-score candidates
appear in the output in discovery order for every run.  The government
aggregator sorts by the key tuple of score and date (src/gov_farm.py
line 198), so two equal-score candidates discovered in the order A
then B, with B carrying the later date, come out in the order B then
A.  This closed run exhibits exactly that: the working set holds A
before B with equal scores, and the returned Collection lists B
first. -/
theorem C3_counterexample :
    (govCandidates gFetchAB [feedGov]).all_articles.map (fun a => (a.title, a.score))
        = [("Government scheme A", 20), ("Government scheme B", 20)]
    ∧ (fetch_top_10_articles "TS" false oracleNone gFetchAB [feedGov]).articles.map
        (fun a => a.title) = ["Government scheme B", "Government scheme A"] := by
  constructor
  · decide
  · decide

/-- C3 (amended): the enhanced aggregator sorts stably by descending
score alone, so its output is score-descending and two equal-score
candidates keep their discovery order; the government aggregator sorts
stably by the composite key of descending score and then descending
date string, so discovery order is preserved only between candidates
whose score and date key both agree.  The url-projection conjuncts
transport the ordering statements to the returned Collections, whose
article lists are the enrichment images of the sorted truncated
candidate lists. -/
theorem C3_amended_sort_stability
    (current_year fetchTimestamp : String) (timeAt : Nat → Nat) (modelAvailable : Bool)
    (oracle : String → SummResult) (fetch : Feed → Except String (List Entry))
    (feeds : List Feed) (max_articles : Nat)
    (govTimestamp : String) (govModelAvailable : Bool) (govOracle : String → SummResult)
    (govFetch : GovFeed → Except String (List Entry)) (govFeeds : List GovFeed)
    (a b : Article) (ga gb : GovArticle) :
    (appTopArticles current_year fetch feeds max_articles).Pairwise
        (fun x y => y.score ≤ x.score)
    ∧ (a.score = b.score →
        [a, b].Sublist (appCandidates current_year fetch feeds).all_articles →
        [a, b].Sublist (List.insertionSort appSortRel
          (appCandidates current_year fetch feeds).all_articles))
    ∧ (fetch_enhanced_articles current_year timeAt fetchTimestamp modelAvailable oracle
          fetch feeds max_articles).articles.map (fun x => x.url)
      = (appTopArticles current_year fetch feeds max_articles).map (fun x => x.url)
    ∧ (govTopArticles govFetch govFeeds).Pairwise govSortRel
    ∧ (ga.score = gb.score → ga.date = gb.date →
        [ga, gb].Sublist (govCandidates govFetch govFeeds).all_articles →
        [ga, gb].Sublist (List.insertionSort govSortRel
          (govCandidates govFetch govFeeds).all_articles))
    ∧ (fetch_top_10_articles govTimestamp govModelAvailable govOracle govFetch
          govFeeds).articles.map (fun x => x.url)
      = (govTopArticles govFetch govFeeds).map (fun x => x.url) := by
  haveI : IsTotal Article appSortRel := ⟨appSortRel_total⟩
  haveI : IsTrans Article appSortRel := ⟨fun _ _ _ h₁ h₂ => appSortRel_trans h₁ h₂⟩
  haveI : IsTotal GovArticle govSortRel := ⟨govSortRel_total⟩
  haveI : IsTrans GovArticle govSortRel := ⟨fun _ _ _ h₁ h₂ => govSortRel_trans h₁ h₂⟩
  refine ⟨?_, ?_, ?_, ?_, ?_, ?_⟩
  · exact List.Pairwise.sublist (List.take_sublist _ _)
      (List.sorted_insertionSort appSortRel _)
  · intro hs hsub
    exact List.pair_sublist_insertionSort (le_of_eq hs.symm) hsub
  · simp only [fetch_enhanced_articles]
    split
    · rename_i hempty
      simp [get_empty_response, appTopArticles, hempty, List.insertionSort]
    · rw [List.map_map]
      exact enum_map_snd_comp (appTopArticles current_year fetch feeds max_articles)
        (fun x : Article => x.url)
  · exact List.Pairwise.sublist (List.take_sublist _ _)
      (List.sorted_insertionSort govSortRel _)
  · intro hs hd hsub
    refine List.pair_sublist_insertionSort (Or.inr ⟨hs, ?_⟩) hsub
    rw [hd]
    exact strLeCh_refl _
  · simp only [fetch_top_10_articles]
    rw [List.map_map]
    exact enum_map_snd_comp (govTopArticles govFetch govFeeds)
      (fun x : GovArticle => x.url)

/-- C3 witness: the stability conjuncts applied to concrete
equal-score candidate pairs of both pipelines. -/
theorem C3_witness :
    [articleFarm1, articleFarm2].Sublist (List.insertionSort appSortRel
      (appCandidates "2025" fetchMin12 [feedPlain]).all_articles)
    ∧ [govArtC, govArtD].Sublist (List.insertionSort govSortRel
      (govCandidates gFetchCD [feedGov]).all_articles) :=
  ⟨(C3_amended_sort_stability "2025" "TS" (fun _ => 0) false oracleNone fetchMin12 [feedPlain] 15
      "TS" false oracleNone gFetchCD [feedGov] articleFarm1 articleFarm2
      govArtC govArtD).2.1 (by decide) (by decide),
   (C3_amended_sort_stability "2025" "TS" (fun _ => 0) false oracleNone fetchMin12 [feedPlain] 15
      "TS" false oracleNone gFetchCD [feedGov] articleFarm1 articleFarm2
      govArtC govArtD).2.2.2.2.1 (by decide) (by decide) (by decide)⟩

/-- C4 counterexample: the claim states that two invocations on fixed
inputs produce Collections equal in every field.  The reel identifier
of every article embeds a clock reading taken during enrichment
(src/app.py line 322) and the fetch timestamp is the clock at return
time (line 332), so two invocations at different clock states differ.
This closed run pair differs only in the clock readings and produces
unequal Collections. -/
theorem C4_counterexample :
    fetch_enhanced_articles "2025" (fun _ => 0) "2025-06-01T00:00:00+00:00" false oracleNone
        fetchMin [feedPlain] 15
      ≠ fetch_enhanced_articles "2025" (fun _ => 1) "2025-06-01T00:00:05+00:00" false oracleNone
        fetchMin [feedPlain] 15 := by
  decide

/-- C4 (amended): with the calendar year fixed, the run is a pure
function of its inputs apart from the two clock-derived outputs: any
two invocations with the same sources, entries, summarizer behaviour
and year, but arbitrary per-article time readings and return
timestamps, produce Collections that agree on every article field
except reel_id and on every metadata field except fetch_timestamp. -/
theorem C4_amended_determinism (current_year : String) (timeAt₁ timeAt₂ : Nat → Nat)
    (fetchTimestamp₁ fetchTimestamp₂ : String) (modelAvailable : Bool)
    (oracle : String → SummResult) (fetch : Feed → Except String (List Entry))
    (feeds : List Feed) (max_articles : Nat) :
    dropTimes (fetch_enhanced_articles current_year timeAt₁ fetchTimestamp₁ modelAvailable
        oracle fetch feeds max_articles)
      = dropTimes (fetch_enhanced_articles current_year timeAt₂ fetchTimestamp₂ modelAvailable
        oracle fetch feeds max_articles) := by
  simp only [fetch_enhanced_articles, dropTimes]
  split
  · rfl
  · simp only [List.map_map, List.length_map, List.filter_map]
    rfl

theorem failed_oracle_text {oracle : String → SummResult}
    (hfail : ∀ p, failedResult (oracle p) = true) (p t : String)
    (heq : oracle p = SummResult.resp (some t)) : t = "" := by
  have h := hfail p
  rw [heq] at h
  exact of_decide_eq_true h

/-- C7 sentinel lemma: under a failing summarization dependency every
generated summary is one of the sentinel failure strings. -/
theorem generate_enhanced_summary_sentinel {modelAvailable : Bool}
    {oracle : String → SummResult} (hfail : alwaysFailing modelAvailable oracle)
    (title description source_type : String) :
    isSentinelSummary
      (generate_enhanced_summary modelAvailable oracle title description source_type)
      = true := by
  rcases hfail with hfail | hfail
  · subst hfail
    have hg : generate_enhanced_summary false oracle title description source_type
        = "🤖 AI service not available" := rfl
    rw [hg]
    decide
  · simp only [generate_enhanced_summary]
    split
    · decide
    · split
      · decide
      · split
        · simp only [isSentinelSummary, Bool.or_eq_true]
          right
          rw [toList_append]
          exact isPrefixOf_self_append _ _
        · decide
        · rename_i t heq
          have ht : t = "" := failed_oracle_text hfail _ _ heq
          rw [if_pos ht]
          decide

/-- C7: if the summarization dependency fails on every call, the run
returns a Collection of the same size as with any working summarizer,
every article carries a sentinel failure summary, ranks and all other
article fields and metadata agree with the working-summarizer run, and
when any candidate survived filtering the run reports no error. -/
theorem C7_graceful_degradation (current_year fetchTimestamp : String) (timeAt : Nat → Nat)
    (modelAvailable₁ modelAvailable₂ : Bool) (oracle₁ oracle₂ : String → SummResult)
    (fetch : Feed → Except String (List Entry)) (feeds : List Feed) (max_articles : Nat)
    (hfail : alwaysFailing modelAvailable₁ oracle₁) :
    (fetch_enhanced_articles current_year timeAt fetchTimestamp modelAvailable₁ oracle₁
        fetch feeds max_articles).articles.length
      = (fetch_enhanced_articles current_year timeAt fetchTimestamp modelAvailable₂ oracle₂
        fetch feeds max_articles).articles.length
    ∧ (∀ a ∈ (fetch_enhanced_articles current_year timeAt fetchTimestamp modelAvailable₁
        oracle₁ fetch feeds max_articles).articles, isSentinelSummary a.ai_summary = true)
    ∧ dropSummaries (fetch_enhanced_articles current_year timeAt fetchTimestamp
        modelAvailable₁ oracle₁ fetch feeds max_articles)
      = dropSummaries (fetch_enhanced_articles current_year timeAt fetchTimestamp
        modelAvailable₂ oracle₂ fetch feeds max_articles)
    ∧ ((appCandidates current_year fetch feeds).all_articles ≠ [] →
        (fetch_enhanced_articles current_year timeAt fetchTimestamp modelAvailable₁ oracle₁
          fetch feeds max_articles).error = none) := by
  refine ⟨?_, ?_, ?_, ?_⟩
  · simp only [fetch_enhanced_articles]
    split
    · rfl
    · simp only [List.length_map]
  · intro a ha
    simp only [fetch_enhanced_articles] at ha
    split at ha
    · simp [get_empty_response] at ha
    · rcases List.mem_map.mp ha with ⟨p, _, rfl⟩
      exact generate_enhanced_summary_sentinel hfail _ _ _
  · simp only [fetch_enhanced_articles, dropSummaries]
    split
    · rfl
    · simp only [List.map_map, List.length_map, List.filter_map]
      rfl
  · intro hne
    simp only [fetch_enhanced_articles]
    split
    · rename_i hempty
      exact absurd hempty hne
    · rfl

/-- C7 witness: the graceful-degradation theorem applied to one
concrete run, with the always-failing hypothesis discharged by an
unavailable model object. -/
theorem C7_witness :
    (fetch_enhanced_articles "2025" (fun _ => 0) "TS" false oracleNone fetchMin
        [feedPlain] 15).articles.length
      = (fetch_enhanced_articles "2025" (fun _ => 0) "TS" true oracleGood fetchMin
        [feedPlain] 15).articles.length :=
  (C7_graceful_degradation "2025" "TS" (fun _ => 0) false true oracleNone oracleGood
    fetchMin [feedPlain] 15 (Or.inl rfl)).1

/-- C10: an entry with no title key is processed exactly as if its
title were the literal string No Title: the working state transition
is identical (so the placeholder participates in relevance
classification and scoring like ordinary title text), and any
candidate the entry produces carries that literal title.  Both
pipelines are covered. -/
theorem C10_no_title_placeholder (current_year : String) (fd : Feed) (gfd : GovFeed)
    (st : RunState) (gst : GovRunState) (e : Entry) (h : e.title = none) :
    processEntry current_year fd st e
      = processEntry current_year fd st { e with title := some "No Title" }
    ∧ govProcessEntry gfd gst e
      = govProcessEntry gfd gst { e with title := some "No Title" }
    ∧ (∀ a ∈ (processEntry current_year fd st e).all_articles,
        a ∉ st.all_articles → a.title = "No Title")
    ∧ (∀ a ∈ (govProcessEntry gfd gst e).all_articles,
        a ∉ gst.all_articles → a.title = "No Title") := by
  refine ⟨?_, ?_, ?_, ?_⟩
  · simp only [processEntry, h]
    rfl
  · simp only [govProcessEntry, h]
    rfl
  · intro a ha hnot
    simp only [processEntry] at ha
    split at ha
    · exact absurd ha hnot
    · split at ha
      · rcases List.mem_append.mp ha with ha | ha
        · exact absurd ha hnot
        · rw [List.mem_singleton.mp ha]
          show e.title.getD "No Title" = "No Title"
          rw [h]
          rfl
      · exact absurd ha hnot
  · intro a ha hnot
    simp only [govProcessEntry] at ha
    split at ha
    · exact absurd ha hnot
    · split at ha
      · rcases List.mem_append.mp ha with ha | ha
        · exact absurd ha hnot
        · rw [List.mem_singleton.mp ha]
          show e.title.getD "No Title" = "No Title"
          rw [h]
          rfl
      · exact absurd ha hnot

/-- C10 witness: the placeholder equivalence applied to a concrete
title-less entry. -/
theorem C10_witness :
    processEntry "2025" feedPlain ⟨[], []⟩ entryNoTitle
      = processEntry "2025" feedPlain ⟨[], []⟩ { entryNoTitle with title := some "No Title" } :=
  (C10_no_title_placeholder "2025" feedPlain feedGov ⟨[], []⟩ ⟨[], []⟩ entryNoTitle rfl).1

end AgriApp
